import Mathlib

/-!
Shallow embedding of the `k8sport` package
(github.com/microcumulus/k8s-portforward-conn) and proofs about its
stream-multiplexed connection adapter.

The Go sources embedded here:
* `fwdConn` with methods `watchErr`, `Read`, `Write`, `Close`,
  `SetDeadline`, `SetReadDeadline`, `SetWriteDeadline` (src/unnamed/part_002);
* `Forwarder.Forward` (src/unnamed/part_003), which dials, allocates a
  request identifier from an `atomic.Int32`, opens the error sub-stream,
  closes its local write side, opens the data sub-stream and spawns the
  error watcher;
* `FwdConn.HTTPTransport` (src/conn_convenience.go).

Modelling conventions:
* Go `error` values are the inductive `GoErr`; a Go `nil` error is `none`
  in an `Option GoErr`.  The watcher only ever sends non-nil errors, so
  channel contents are plain `GoErr`s.
* The unbuffered channel `errch` together with the watcher goroutine
  blocked on sends is modelled by the list `pending`: its head is the
  value a blocked sender currently offers, so a non-blocking receive
  (`select`/`default` in Go) succeeds exactly when `pending` is nonempty
  and removes the head.
* The data stream is an oracle: `dataReadScript`/`dataWriteScript` give
  the result of the k-th delegated call, and `readCount`/`writeCount`
  record how often the data stream has actually been reached.
* `Forwarder.Forward` is a function of an environment recording which of
  the fallible external calls (dial, the two `CreateStream`s) fail; it
  returns the trace of side-effecting events in program order, together
  with the returned error.
* The `atomic.Int32` counter `reqID` is embedded as exact 32-bit
  two's-complement arithmetic over `Int` (`% 2^32` with re-centering).
-/

namespace K8sPort

/-- Go error values produced in this package.  `wrapped ctx e` models
`fmt.Errorf(ctx + ": %w", e)`; `errWhileReading e` models
`fmt.Errorf("error while reading error stream: %w", err)` in `watchErr`;
`apiserverMsg s` models `fmt.Errorf("error returned from apiserver: %s", bs)`;
`streamErr` stands for an arbitrary error coming out of an underlying
stream or connection. -/
inductive GoErr where
  | streamErr (msg : String)
  | errWhileReading (e : GoErr)
  | apiserverMsg (msg : String)
  | wrapped (ctx : String) (e : GoErr)
  deriving DecidableEq, Repr

/-- The `(n int, err error)` result pair of a Go `Read`/`Write` call. -/
structure StreamRes where
  n : Nat
  e : Option GoErr
  deriving DecidableEq, Repr

/-- The underlying upgraded session (`httpstream.Connection`).  The only
state the adapter mutates through it is the session-wide idle timeout set
by `SetIdleTimeout` (a signed duration, in the same unit as the model's
time values), whether `RemoveStreams` was called, and whether the session
was closed. -/
structure SessionSt where
  idleTimeout : Option Int := none
  removedStreams : Bool := false
  closed : Bool := false
  closeRes : Option GoErr := none
  deriving Repr

/-- State of a `fwdConn` adapter together with the scripted behaviour of
its collaborators.  `pending` is the queue of errors the watcher still
offers on the unbuffered channel `errch` (head = currently blocked send);
`dataReadScript k` / `dataWriteScript k` is the result the data stream
would return for its k-th `Read`/`Write`; `dataCloseRes` is the result of
`data.Close()`. -/
structure FwdConnSt where
  fwd : SessionSt
  pending : List GoErr
  dataReadScript : Nat → StreamRes
  dataWriteScript : Nat → StreamRes
  readCount : Nat := 0
  writeCount : Nat := 0
  dataCloseRes : Option GoErr := none
  dataClosed : Bool := false

namespace fwdConn

/-- Method `fwdConn.Read`: non-blocking check of `errch` (succeeds iff a sender
is blocked, i.e. `pending` is nonempty), returning `(0, err)` without
touching the data stream; otherwise delegate to `f.data.Read`. -/
def Read (s : FwdConnSt) : StreamRes × FwdConnSt :=
  match s.pending with
  | e :: rest => (⟨0, some e⟩, { s with pending := rest })
  | [] => (s.dataReadScript s.readCount, { s with readCount := s.readCount + 1 })

/-- Method `fwdConn.Write`: same non-blocking pre-check, then delegate to
`f.data.Write`. -/
def Write (s : FwdConnSt) : StreamRes × FwdConnSt :=
  match s.pending with
  | e :: rest => (⟨0, some e⟩, { s with pending := rest })
  | [] => (s.dataWriteScript s.writeCount, { s with writeCount := s.writeCount + 1 })

/-- Method `fwdConn.Close`: drain `errch` non-blockingly recording a pending
error, close the data stream recording its error, `RemoveStreams`, close
the session recording its error, and return `errors.Join` of the recorded
errors.  `errors.Join` is `nil` iff no non-nil error was recorded, so the
aggregate is the (possibly empty) list of recorded errors.  (The Go code
guards the drained value with `if err != nil`; the watcher only sends
non-nil errors, which is why `pending` holds plain `GoErr`s.) -/
def Close (s : FwdConnSt) : List GoErr × FwdConnSt :=
  let drained : List GoErr := match s.pending with
    | e :: _ => [e]
    | [] => []
  let s₁ : FwdConnSt := { s with pending := s.pending.tail }
  let dataErrs : List GoErr := match s₁.dataCloseRes with
    | some e => [e]
    | none => []
  let s₂ : FwdConnSt := { s₁ with dataClosed := true,
                                  fwd := { s₁.fwd with removedStreams := true } }
  let fwdErrs : List GoErr := match s₂.fwd.closeRes with
    | some e => [e]
    | none => []
  let s₃ : FwdConnSt := { s₂ with fwd := { s₂.fwd with closed := true } }
  (drained ++ dataErrs ++ fwdErrs, s₃)

/-- Method `fwdConn.SetDeadline`: `f.fwd.SetIdleTimeout(time.Until(t))` and
return `nil`.  `time.Until t = t - now`; no clamping is performed, the
raw (possibly negative) difference is handed to the session. -/
def SetDeadline (s : FwdConnSt) (now t : Int) : Option GoErr × FwdConnSt :=
  (none, { s with fwd := { s.fwd with idleTimeout := some (t - now) } })

/-- Method `fwdConn.SetReadDeadline`: identical body to `SetDeadline`. -/
def SetReadDeadline (s : FwdConnSt) (now t : Int) : Option GoErr × FwdConnSt :=
  (none, { s with fwd := { s.fwd with idleTimeout := some (t - now) } })

/-- Method `fwdConn.SetWriteDeadline`: identical body to `SetDeadline`. -/
def SetWriteDeadline (s : FwdConnSt) (now t : Int) : Option GoErr × FwdConnSt :=
  (none, { s with fwd := { s.fwd with idleTimeout := some (t - now) } })

end fwdConn

/-- The sequence of errors `fwdConn.watchErr` sends on `errch` in program
order, as a function of what `io.ReadAll(f.err)` returned: content bytes
`bs` and error `ioe`.  The Go body sends
`fmt.Errorf("error while reading error stream: %w", err)` when `ioe` is
non-nil, and then additionally
`fmt.Errorf("error returned from apiserver: %s", bs)` when `len(bs) > 0`;
each send is selectable against `ctx.Done()` (a cancelled context only
discards deliveries, it never adds any), after which the goroutine
returns. -/
def watchErrDeliveries (bs : String) (ioe : Option GoErr) : List GoErr :=
  (match ioe with
    | some e => [GoErr.errWhileReading e]
    | none => []) ++
  (if bs.length > 0 then [GoErr.apiserverMsg bs] else [])

/-- The role a sub-stream is opened with (`v1.StreamTypeError` /
`v1.StreamTypeData`). -/
inductive StreamRole where
  | error
  | data
  deriving DecidableEq, Repr

/-- The headers `Forwarder.Forward` passes to `conn.CreateStream`:
stream role (`v1.StreamType`), target port (`v1.PortHeader`) and request
identifier (`v1.PortForwardRequestIDHeader`, the decimal string of the
int32 counter value, kept here as the integer). -/
structure Headers where
  streamType : StreamRole
  port : String
  requestID : Int
  deriving DecidableEq, Repr

/-- Side-effecting events of one `Forwarder.Forward` call, in program
order.  `closeConn` (a `conn.Close()` on the upgraded session) is in the
vocabulary so that its absence from every trace is expressible: the Go
code never closes the session inside `Forward`, not even on a failure
path. -/
inductive FwdEv where
  | dial
  | createStream (h : Headers)
  | closeErrorStreamWrite
  | spawnWatcher
  | closeConn
  deriving DecidableEq, Repr

/-- Which of the fallible external calls inside `Forwarder.Forward` fail:
`dialer.Dial`, `conn.CreateStream` for the error stream, and
`conn.CreateStream` for the data stream (`none` = the call succeeds). -/
structure ForwardEnv where
  dialRes : Option GoErr
  errStreamRes : Option GoErr
  dataStreamRes : Option GoErr
  deriving Repr

/-- Method `Forwarder.Forward` (src/unnamed/part_003): dial; set headers to
{error role, port, request id}; create the error stream; close its local
write side; flip the role header to data (port and request id are kept in
the same header object); create the data stream; build the adapter and
spawn `watchErr`.  Any failure wraps the error with `fmt.Errorf` and
returns immediately.  `reqID` is the value `fw.reqID.Add(1)` returned for
this call; the trace lists the events actually performed. -/
def Forwarder.Forward (env : ForwardEnv) (reqID : Int) (port : String) :
    List FwdEv × Option GoErr :=
  match env.dialRes with
  | some e => ([.dial], some (GoErr.wrapped "error dialing for stream" e))
  | none =>
    let hErr : Headers := ⟨.error, port, reqID⟩
    match env.errStreamRes with
    | some e => ([.dial, .createStream hErr],
                 some (GoErr.wrapped "error creating err stream" e))
    | none =>
      let hData : Headers := ⟨.data, port, reqID⟩
      match env.dataStreamRes with
      | some e => ([.dial, .createStream hErr, .closeErrorStreamWrite,
                    .createStream hData],
                   some (GoErr.wrapped "error creating data stream" e))
      | none => ([.dial, .createStream hErr, .closeErrorStreamWrite,
                  .createStream hData, .spawnWatcher], none)

/-- Exact 32-bit two's-complement reduction, embedding Go's `int32`. -/
def int32wrap (n : Int) : Int := (n + 2 ^ 31) % 2 ^ 32 - 2 ^ 31

/-- The request identifier observed by the k-th `Forward` call (k ≥ 1) on
a fresh `Forwarder`, in the serialization order of the atomic counter:
`reqID` is an `atomic.Int32` starting at the zero value, and each call
performs `next := fw.reqID.Add(1)`, which returns the new value, so the
k-th call observes the int32 value of k. -/
def nthReqID (k : Nat) : Int := int32wrap k

/-- Method `FwdConn.HTTPTransport` (src/conn_convenience.go) returns an
`http.Transport` whose `DialContext` ignores the context, network and
address and returns the very `FwdConn` it was built from with a `nil`
error.  Adapter identity is modelled by an opaque reference `f`. -/
def HTTPTransportDialContext {Conn : Type} (f : Conn)
    (_ctx _network _addr : String) : Conn × Option GoErr :=
  (f, none)

/-- One caller-driven operation on the adapter.  Each of the three
methods begins with the same non-blocking receive from `errch`. -/
inductive Op where
  | read
  | write
  | close
  deriving DecidableEq, Repr

/-- The adapter state after performing one operation (discarding the
operation's result). -/
def applyOp (s : FwdConnSt) (op : Op) : FwdConnSt :=
  match op with
  | .read => (fwdConn.Read s).2
  | .write => (fwdConn.Write s).2
  | .close => (fwdConn.Close s).2

/-- The channel values drained over a sequence of operations, in order:
each of `Read`, `Write` and `Close` starts with the same non-blocking
receive, which observes the head of `pending` exactly when some delivery
is pending. -/
def collectChanErrs (s : FwdConnSt) : List Op → List GoErr
  | [] => []
  | op :: ops => s.pending.head?.toList ++ collectChanErrs (applyOp s op) ops

/-- A sample error value, standing for a remote-reported failure. -/
def eBoom : GoErr := GoErr.apiserverMsg "connection refused"

/-- A concrete adapter state: the watcher currently offers `eBoom` on the
channel, and the data stream would answer every read with 2 bytes and
every write with 3 bytes, successfully. -/
def sampleSt : FwdConnSt :=
  { fwd := {}
    pending := [eBoom]
    dataReadScript := fun _ => ⟨2, none⟩
    dataWriteScript := fun _ => ⟨3, none⟩ }

/-- A concrete adapter state whose pending queue is exactly what the
watcher delivers when `io.ReadAll` on the error stream returned partial
content `"refused"` together with a read failure: two deliveries. -/
def pendTwo : FwdConnSt :=
  { sampleSt with
    pending := watchErrDeliveries "refused" (some (GoErr.streamErr "reset")) }

/-- A concrete `Forward` environment in which dialing and the error
stream succeed but creating the data stream fails. -/
def envDataFail : ForwardEnv := ⟨none, none, some (GoErr.streamErr "boom")⟩

/-- A concrete `Forward` environment in which every external call
succeeds. -/
def envOK : ForwardEnv := ⟨none, none, none⟩

/-! Helper lemmas. -/

/-- Every operation removes the head of the pending-delivery queue (the
non-blocking receive each method starts with). -/
theorem applyOp_pending (s : FwdConnSt) (op : Op) :
    (applyOp s op).pending = s.pending.tail := by
  cases op <;> cases hp : s.pending <;>
    simp [applyOp, fwdConn.Read, fwdConn.Write, fwdConn.Close, hp]

/-- Over any operation sequence the drained channel values are exactly an
initial segment of the pending-delivery queue. -/
theorem collectChanErrs_eq_take (ops : List Op) (s : FwdConnSt) :
    collectChanErrs s ops = s.pending.take ops.length := by
  induction ops generalizing s with
  | nil => simp [collectChanErrs]
  | cons op ops ih =>
    rw [collectChanErrs, ih, applyOp_pending]
    cases s.pending <;> simp

/-- The watcher's deliveries are pairwise distinct: the I/O-failure error
and the content error use different wrappings. -/
theorem watchErrDeliveries_nodup (bs : String) (ioe : Option GoErr) :
    (watchErrDeliveries bs ioe).Nodup := by
  cases ioe <;> by_cases h : bs.length > 0 <;>
    simp [watchErrDeliveries, h]

/-- The watcher makes at most two deliveries. -/
theorem watchErrDeliveries_length_le (bs : String) (ioe : Option GoErr) :
    (watchErrDeliveries bs ioe).length ≤ 2 := by
  cases ioe <;> by_cases h : bs.length > 0 <;>
    simp [watchErrDeliveries, h]

/-- Below the wraparound point, 32-bit reduction is the identity. -/
theorem int32wrap_of_lt (k : Nat) (hk : k < 2 ^ 31) : int32wrap k = k := by
  have h31 : ((2 : Int) ^ 31) = 2147483648 := by norm_num
  have h32 : ((2 : Int) ^ 32) = 4294967296 := by norm_num
  have hk' : (k : Int) < 2147483648 := by exact_mod_cast hk
  have hk0 : (0 : Int) ≤ (k : Int) := Int.ofNat_nonneg k
  unfold int32wrap
  rw [h31, h32, Int.emod_eq_of_lt (by omega) (by omega)]
  omega

/-! Claim theorems. -/

/-- Counterexample for C1.  The claim says that once the error-delivery
channel is populated with `e`, every subsequent read and write returns
`e` and never reaches the data stream, for any number of calls.  On
`sampleSt` (channel populated with `eBoom`) the first read returns
`eBoom`, but the second read returns the data stream's answer `(2, nil)`
— not `eBoom` — and does reach the data stream (`readCount` advances):
the single non-blocking receive drains the unbuffered channel. -/
theorem C1_counterexample :
    (fwdConn.Read sampleSt).1 = ⟨0, some eBoom⟩ ∧
    (fwdConn.Read (fwdConn.Read sampleSt).2).1 = ⟨2, none⟩ ∧
    (fwdConn.Read (fwdConn.Read sampleSt).2).1 ≠ ⟨0, some eBoom⟩ ∧
    (fwdConn.Read (fwdConn.Read sampleSt).2).2.readCount = 1 := by
  decide

/-- C1 (amended): once the error-delivery channel is populated with `e`,
the next read (and likewise the next write) returns `(0, e)` without
reaching the data stream, and drains the channel, so the value is not
observed again by later calls. -/
theorem C1_poisoned_once (s : FwdConnSt) (e : GoErr) (rest : List GoErr)
    (h : s.pending = e :: rest) :
    fwdConn.Read s = (⟨0, some e⟩, { s with pending := rest }) ∧
    fwdConn.Write s = (⟨0, some e⟩, { s with pending := rest }) ∧
    (fwdConn.Read s).2.readCount = s.readCount ∧
    (fwdConn.Write s).2.writeCount = s.writeCount := by
  refine ⟨?_, ?_, ?_, ?_⟩ <;> simp [fwdConn.Read, fwdConn.Write, h]

/-- Witness for `C1_poisoned_once` at the concrete state `sampleSt`. -/
theorem C1_poisoned_once_witness :
    fwdConn.Read sampleSt = (⟨0, some eBoom⟩, { sampleSt with pending := [] }) ∧
    fwdConn.Write sampleSt = (⟨0, some eBoom⟩, { sampleSt with pending := [] }) ∧
    (fwdConn.Read sampleSt).2.readCount = sampleSt.readCount ∧
    (fwdConn.Write sampleSt).2.writeCount = sampleSt.writeCount :=
  C1_poisoned_once sampleSt eBoom [] rfl

/-- Counterexample for C2.  The claim says the idle timeout applied to
the session equals `T - now` clamped at zero when `T` is in the past.
With `now = 10` and `T = 3` the code applies `time.Until(T) = -7`, not
`0`: no clamping is performed. -/
theorem C2_counterexample :
    (fwdConn.SetDeadline sampleSt 10 3).2.fwd.idleTimeout = some (-7) ∧
    (fwdConn.SetDeadline sampleSt 10 3).2.fwd.idleTimeout ≠ some 0 := by
  decide

/-- C2 (amended): a deadline `t` set at time `now` via `SetDeadline`
(and identically via `SetReadDeadline` and `SetWriteDeadline`) applies to
the underlying session an idle-timeout duration of exactly `t - now` —
possibly negative when `t` is in the past, with no clamping — stored
session-wide (`SessionSt.idleTimeout`), not on any individual stream. -/
theorem C2_setDeadline_idleTimeout (s : FwdConnSt) (now t : Int) :
    fwdConn.SetDeadline s now t =
      (none, { s with fwd := { s.fwd with idleTimeout := some (t - now) } }) ∧
    fwdConn.SetReadDeadline s now t = fwdConn.SetDeadline s now t ∧
    fwdConn.SetWriteDeadline s now t = fwdConn.SetDeadline s now t := by
  refine ⟨rfl, rfl, rfl⟩

/-- C3: a single `Close` call closes the data stream, removes both
sub-streams from the session and closes the session, whatever the state
of the error-delivery channel; the aggregate (`errors.Join`) is non-nil
iff at least one of the close-time operations — pending delivered error,
data-stream close, session close — produced an error. -/
theorem C3_close_complete (s : FwdConnSt) :
    (fwdConn.Close s).2.dataClosed = true ∧
    (fwdConn.Close s).2.fwd.removedStreams = true ∧
    (fwdConn.Close s).2.fwd.closed = true ∧
    ((fwdConn.Close s).1 ≠ [] ↔
      (s.pending ≠ [] ∨ s.dataCloseRes ≠ none ∨ s.fwd.closeRes ≠ none)) := by
  cases hp : s.pending <;> cases hd : s.dataCloseRes <;>
    cases hf : s.fwd.closeRes <;>
    simp [fwdConn.Close, hp, hd, hf]

/-- Counterexample for C5.  The claim concludes that at most one error is
ever surfaced per adapter.  When `io.ReadAll` on the error stream returns
partial content together with a read failure, the watcher delivers two
errors in sequence, and two successive reads each surface one of them
(neither read touching the data stream). -/
theorem C5_counterexample :
    (fwdConn.Read pendTwo).1.e =
      some (GoErr.errWhileReading (GoErr.streamErr "reset")) ∧
    (fwdConn.Read (fwdConn.Read pendTwo).2).1.e =
      some (GoErr.apiserverMsg "refused") ∧
    (fwdConn.Read (fwdConn.Read pendTwo).2).1.e ≠ (fwdConn.Read pendTwo).1.e ∧
    (fwdConn.Read (fwdConn.Read pendTwo).2).2.readCount = 0 := by
  decide

/-- C5 (amended): each value delivered on the error-delivery channel is
observed by at most one operation — over any sequence of reads, writes
and closes, the drained values are pairwise distinct and never repeat —
but up to two errors (not one) can be surfaced per adapter lifetime,
because the watcher can deliver both an I/O-failure error and a content
error. -/
theorem C5_drained_at_most_once (bs : String) (ioe : Option GoErr)
    (s : FwdConnSt) (h : s.pending = watchErrDeliveries bs ioe)
    (ops : List Op) :
    (collectChanErrs s ops).Nodup ∧ (collectChanErrs s ops).length ≤ 2 := by
  rw [collectChanErrs_eq_take, h]
  constructor
  · exact (watchErrDeliveries_nodup bs ioe).sublist (List.take_sublist _ _)
  · rw [List.length_take]
    exact le_trans (min_le_right _ _) (watchErrDeliveries_length_le bs ioe)

/-- Witness for `C5_drained_at_most_once` at the concrete state
`pendTwo` with three operations. -/
theorem C5_drained_at_most_once_witness :
    (collectChanErrs pendTwo [Op.read, Op.read, Op.close]).Nodup ∧
    (collectChanErrs pendTwo [Op.read, Op.read, Op.close]).length ≤ 2 :=
  C5_drained_at_most_once "refused" (some (GoErr.streamErr "reset"))
    pendTwo rfl [Op.read, Op.read, Op.close]

/-- Counterexample for C4.  The claim says the watcher delivers at most
one error over the adapter's lifetime.  When `io.ReadAll` on the error
stream returns partial content `"boom"` together with a read failure,
both `if` bodies of `watchErr` run and two errors are delivered in
sequence. -/
theorem C4_counterexample :
    watchErrDeliveries "boom" (some (GoErr.streamErr "reset")) =
      [GoErr.errWhileReading (GoErr.streamErr "reset"),
       GoErr.apiserverMsg "boom"] ∧
    ¬ (watchErrDeliveries "boom" (some (GoErr.streamErr "reset"))).length ≤ 1 := by
  decide

/-- C4 (amended): on clean end-of-stream of the error stream with empty
content the watcher delivers nothing to the error-delivery channel, and
over the whole adapter lifetime it delivers at most two errors (one for
an I/O failure while reading the error stream, then one for non-empty
content), each delivery attempt being discarded instead if the context is
cancelled, after which the task exits. -/
theorem C4_watchErr_deliveries :
    watchErrDeliveries "" none = [] ∧
    ∀ (bs : String) (ioe : Option GoErr),
      (watchErrDeliveries bs ioe).length ≤ 2 :=
  ⟨rfl, watchErrDeliveries_length_le⟩

/-- Counterexample for C6.  The claim says the allocated request
identifiers are strictly increasing in the serialization order of the
atomic counter for every number of calls.  The counter is an
`atomic.Int32`: the call numbered 2^31 observes `-2^31`, which is smaller
than the value `2^31 - 1` observed by the preceding call. -/
theorem C6_counterexample :
    nthReqID (2 ^ 31 - 1) = 2 ^ 31 - 1 ∧
    nthReqID (2 ^ 31) = -(2 ^ 31) ∧
    ¬ nthReqID (2 ^ 31 - 1) < nthReqID (2 ^ 31) := by
  refine ⟨?_, ?_, ?_⟩ <;> norm_num [nthReqID, int32wrap]

/-- C6 (amended): as long as fewer than 2^31 forward calls have been
made, the request identifiers allocated by one `Forwarder`'s atomic
counter are strictly increasing in serialization order — hence pairwise
distinct, so no two concurrent calls observe the same value.  (Beyond
2^31 calls the 32-bit counter wraps.) -/
theorem C6_reqIDs_strictly_increasing (i j : Nat)
    (_hi : 0 < i) (hij : i < j) (hj : j < 2 ^ 31) :
    nthReqID i < nthReqID j ∧ nthReqID i ≠ nthReqID j := by
  rw [nthReqID, nthReqID, int32wrap_of_lt i (lt_trans hij hj),
    int32wrap_of_lt j hj]
  exact ⟨by exact_mod_cast hij, by exact_mod_cast Nat.ne_of_lt hij⟩

/-- Witness for `C6_reqIDs_strictly_increasing` at calls 1 and 2. -/
theorem C6_reqIDs_strictly_increasing_witness :
    nthReqID 1 < nthReqID 2 ∧ nthReqID 1 ≠ nthReqID 2 :=
  C6_reqIDs_strictly_increasing 1 2 (by norm_num) (by norm_num) (by norm_num)

/-- Counterexample for C7.  The claim includes that the open operation
does not silently leak the session handle when creating the data
sub-stream fails.  In the concrete failing environment `envDataFail`, the
call returns an error but the trace contains no `closeConn` event: the
session handle is never closed on this path. -/
theorem C7_counterexample :
    (Forwarder.Forward envDataFail 1 "80").2 ≠ none ∧
    FwdEv.closeConn ∉ (Forwarder.Forward envDataFail 1 "80").1 := by
  decide

/-- C7 (amended): in every execution where creating the data sub-stream
fails after the error sub-stream was opened, the already-opened error
sub-stream's local write side has been closed before the error is
returned (it is closed unconditionally right after creation), but the
session handle is not closed — the trace of such a run ends at the failed
`CreateStream` with no `closeConn` event. -/
theorem C7_dataStream_failure (env : ForwardEnv) (reqID : Int)
    (port : String) (e : GoErr) (h1 : env.dialRes = none)
    (h2 : env.errStreamRes = none) (h3 : env.dataStreamRes = some e) :
    Forwarder.Forward env reqID port =
      ([.dial, .createStream ⟨.error, port, reqID⟩, .closeErrorStreamWrite,
        .createStream ⟨.data, port, reqID⟩],
       some (GoErr.wrapped "error creating data stream" e)) ∧
    FwdEv.closeErrorStreamWrite ∈ (Forwarder.Forward env reqID port).1 ∧
    FwdEv.closeConn ∉ (Forwarder.Forward env reqID port).1 := by
  refine ⟨?_, ?_, ?_⟩ <;> simp [Forwarder.Forward, h1, h2, h3]

/-- Witness for `C7_dataStream_failure` in the environment
`envDataFail`. -/
theorem C7_dataStream_failure_witness :
    Forwarder.Forward envDataFail 1 "80" =
      ([.dial, .createStream ⟨.error, "80", 1⟩, .closeErrorStreamWrite,
        .createStream ⟨.data, "80", 1⟩],
       some (GoErr.wrapped "error creating data stream"
              (GoErr.streamErr "boom"))) ∧
    FwdEv.closeErrorStreamWrite ∈ (Forwarder.Forward envDataFail 1 "80").1 ∧
    FwdEv.closeConn ∉ (Forwarder.Forward envDataFail 1 "80").1 :=
  C7_dataStream_failure envDataFail 1 "80" (GoErr.streamErr "boom")
    rfl rfl rfl

/-- C8: every successful `Forward` run produces exactly the trace in
which the error sub-stream is created strictly before the data
sub-stream, the error sub-stream's local write side is closed immediately
after its creation (the very next event), and both `CreateStream` calls
carry the stream-role, target-port and request-identifier headers (same
port and identifier, roles `error` and `data` respectively). -/
theorem C8_success_trace (env : ForwardEnv) (reqID : Int) (port : String)
    (h1 : env.dialRes = none) (h2 : env.errStreamRes = none)
    (h3 : env.dataStreamRes = none) :
    Forwarder.Forward env reqID port =
      ([.dial, .createStream ⟨.error, port, reqID⟩, .closeErrorStreamWrite,
        .createStream ⟨.data, port, reqID⟩, .spawnWatcher], none) := by
  simp [Forwarder.Forward, h1, h2, h3]

/-- Witness for `C8_success_trace` in the all-success environment
`envOK`. -/
theorem C8_success_trace_witness :
    Forwarder.Forward envOK 1 "80" =
      ([.dial, .createStream ⟨.error, "80", 1⟩, .closeErrorStreamWrite,
        .createStream ⟨.data, "80", 1⟩, .spawnWatcher], none) :=
  C8_success_trace envOK 1 "80" rfl rfl rfl

/-- C9: the dial function of the transport returned by `HTTPTransport`
hands back the very adapter it was created from together with a `nil`
error, whatever context, network and address it is asked for. -/
theorem C9_httpTransport_same_conn {Conn : Type} (f : Conn)
    (ctx network addr : String) :
    HTTPTransportDialContext f ctx network addr = (f, none) :=
  rfl

/-- C10: `SetDeadline`, `SetReadDeadline` and `SetWriteDeadline` always
return a `nil` error, and a read or write that surfaces a poisoned error
from the error-delivery channel returns byte count 0. -/
theorem C10_nil_deadline_zero_count (s : FwdConnSt) (now t : Int) :
    (fwdConn.SetDeadline s now t).1 = none ∧
    (fwdConn.SetReadDeadline s now t).1 = none ∧
    (fwdConn.SetWriteDeadline s now t).1 = none ∧
    (s.pending ≠ [] →
      (fwdConn.Read s).1.n = 0 ∧ (fwdConn.Write s).1.n = 0) := by
  refine ⟨rfl, rfl, rfl, fun hne => ?_⟩
  cases hp : s.pending with
  | nil => exact absurd hp hne
  | cons e rest => exact ⟨by simp [fwdConn.Read, hp], by simp [fwdConn.Write, hp]⟩

/-- Witness for `C10_nil_deadline_zero_count` at the concrete state
`sampleSt`. -/
theorem C10_nil_deadline_zero_count_witness :
    (fwdConn.SetDeadline sampleSt 10 3).1 = none ∧
    (fwdConn.SetReadDeadline sampleSt 10 3).1 = none ∧
    (fwdConn.SetWriteDeadline sampleSt 10 3).1 = none ∧
    ((fwdConn.Read sampleSt).1.n = 0 ∧ (fwdConn.Write sampleSt).1.n = 0) :=
  ⟨(C10_nil_deadline_zero_count sampleSt 10 3).1,
   (C10_nil_deadline_zero_count sampleSt 10 3).2.1,
   (C10_nil_deadline_zero_count sampleSt 10 3).2.2.1,
   (C10_nil_deadline_zero_count sampleSt 10 3).2.2.2 (by decide)⟩

end K8sPort
